import Mathlib

/-!
# Verification of the wallet deep-link connect/sign session core

Shallow embedding of the protocol core of the `block_delivery_app` repository:
the per-provider callback handlers (`lib/phantom-callback.ts`,
`lib/solflare-callback.ts`), the screen-level encrypt/sign helpers
(`encryptPayload`, `sendTxWithActiveWallet`), the provider session stores and
their subscribe/emit machinery (`lib/wallet-store.ts`), and the disconnect
flow.

External dependencies (`tweetnacl`, `bs58`, `JSON`, `expo-linking`) are not
part of the repository; they are modelled as executable idealizations of the
contracts the repository code relies on:

* `nacl.box` is an ideal authenticated-encryption box: encryption is an
  injective tagging of (message, nonce, derived key), and opening succeeds
  exactly on the canonical encryption under the same nonce and key — this is
  the standard idealization of XSalsa20-Poly1305 authenticated encryption
  (decryption with a different key or nonce fails).
* `nacl.box.before` (X25519 precomputation) is modelled as an injective
  pairing of the remote public key and the local secret key; distinct secret
  keys yield distinct shared secrets, as in the generic-group idealization.
* `nacl.randomBytes` (fresh nonce generation) is modelled by passing the
  drawn nonce as an explicit argument.
* `bs58` is modelled as an injective byte-sequence/string codec with
  `decode (encode b) = b`; the repository treats the encoding as opaque wire
  framing and relies only on that round-trip law.
* `JSON.stringify`/`JSON.parse` are modelled on the record of fields the
  repository actually exchanges (`public_key`, `session`, `signature`,
  `transaction`), as an injective serializer with `parse (stringify p) = p`.
* `Linking.parse` (URL query extraction) is external; handlers are modelled
  on the parsed query record (`QueryParams`), with `none` standing for a
  query value that is absent or not a string (the `typeof v === 'string'`
  checks in the source).
-/

/-- Byte sequences on the wire.  Individual bytes are modelled as abstract
symbols (`Char`); the repository code never inspects individual bytes, it
only moves byte sequences between the codec, the box, and the URL layer. -/
abbrev Bytes := List Char

/-- `nacl.BoxKeyPair`: an ephemeral asymmetric encryption keypair. -/
structure BoxKeyPair where
  publicKey : Bytes
  secretKey : Bytes
deriving DecidableEq

namespace nacl

/-- Models `nacl.box.before(theirPublicKey, mySecretKey)`: Diffie-Hellman
precomputation of the shared secret.  Modelled as an injective pairing, so
distinct secret keys (or distinct remote public keys) derive distinct shared
secrets, matching the generic idealization of X25519. -/
def box.before (theirPublicKey mySecretKey : Bytes) : Bytes :=
  theirPublicKey ++ '|' :: mySecretKey

/-- Models `nacl.box.after(message, nonce, sharedSecret)`: ideal authenticated
encryption.  The ciphertext determines the message (via the leading length
tag) and authenticates the nonce and key: opening checks that the ciphertext
is the canonical encryption of the extracted message under the given nonce
and key. -/
def box.after (message nonce key : Bytes) : Bytes :=
  List.replicate message.length 'L' ++ '.' :: (message ++ (nonce ++ key))

/-- Length of the leading run of `'L'` tag symbols of a ciphertext. -/
def leadCount : Bytes → Nat
  | [] => 0
  | c :: rest => if c = 'L' then leadCount rest + 1 else 0

/-- The message a well-formed ciphertext carries: the bytes after the length
tag, truncated to the tagged length. -/
def extractMessage (ciphertext : Bytes) : Bytes :=
  (ciphertext.drop (leadCount ciphertext + 1)).take (leadCount ciphertext)

/-- Models `nacl.box.open.after(ciphertext, nonce, sharedSecret)`: returns the
message when the authentication check passes, `none` (the falsy value the
callers turn into a thrown error) otherwise. -/
def box.openAfter (ciphertext nonce key : Bytes) : Option Bytes :=
  if ciphertext = box.after (extractMessage ciphertext) nonce key then
    some (extractMessage ciphertext)
  else none

end nacl

namespace bs58

/-- Models `bs58.encode`: an injective encoding of byte sequences into
strings; the repository uses it only as opaque wire framing. -/
def encode (b : Bytes) : String := String.mk b

/-- Models `bs58.decode`, the inverse of `encode`. -/
def decode (s : String) : Bytes := s.data

end bs58

/-- The JSON object shapes the repository exchanges through the encrypted
envelope: connect/sign responses carry `public_key`, `session`, `signature`;
outbound sign requests carry `session` and `transaction`.  Absent keys are
`none`. -/
structure Payload where
  public_key : Option String
  session : Option String
  signature : Option String
  transaction : Option String
deriving DecidableEq

/-- Escape-encode the characters of a string, terminated by a `'T'` tag:
each content character is preceded by an `'E'` tag, so the terminator can
never be confused with content. -/
def encStrChars : List Char → List Char
  | [] => ['T']
  | c :: cs => 'E' :: c :: encStrChars cs

/-- Decoder for `encStrChars`, accumulating decoded characters. -/
def decStrAux : List Char → List Char → Option (String × List Char)
  | [], _ => none
  | [c], acc => if c = 'T' then some (String.mk acc.reverse, []) else none
  | c :: d :: rest, acc =>
    if c = 'T' then some (String.mk acc.reverse, d :: rest)
    else if c = 'E' then decStrAux rest (d :: acc)
    else none

/-- Serialize one optional string field: `'N'` for an absent key, `'S'`
followed by the escaped string for a present one. -/
def encOpt : Option String → List Char
  | none => ['N']
  | some s => 'S' :: encStrChars s.data

/-- Parse one optional string field, returning the remaining input. -/
def decOpt : List Char → Option (Option String × List Char)
  | [] => none
  | c :: rest =>
    if c = 'N' then some (none, rest)
    else if c = 'S' then
      match decStrAux rest [] with
      | some (s, r) => some (some s, r)
      | none => none
    else none

/-- Models `JSON.stringify` on the exchanged payload shape. -/
def jsonStringify (p : Payload) : Bytes :=
  encOpt p.public_key ++ (encOpt p.session ++ (encOpt p.signature ++ encOpt p.transaction))

/-- Models `JSON.parse` on the exchanged payload shape; `none` models a
thrown `SyntaxError`. -/
def jsonParse (bs : Bytes) : Option Payload := do
  let (pk, r1) ← decOpt bs
  let (ss, r2) ← decOpt r1
  let (sg, r3) ← decOpt r2
  let (tx, r4) ← decOpt r3
  if r4 = [] then some ⟨pk, ss, sg, tx⟩ else none

/-- JavaScript `a ?? b` (nullish coalescing) on optional string query/JSON
values. -/
def orOpt (a b : Option String) : Option String :=
  match a with
  | some x => some x
  | none => b

/-! ## Parsed callback query (the record `Linking.parse(url).queryParams`
yields; `none` models an absent value or one that is not a string) -/

structure QueryParams where
  errorCode : Option String
  errorMessage : Option String
  data : Option String
  payload : Option String
  nonce : Option String
  phantom_encryption_public_key : Option String
  solflare_encryption_public_key : Option String
deriving DecidableEq

/-- The `{ data, nonce, dappPublicKey }` record returned by the screens'
`encryptPayload` helper. -/
structure EncryptedEnvelope where
  data : String
  nonce : String
  dappPublicKey : String
deriving DecidableEq

/-- `encryptPayload(payload, encryptionPublicKey, keypair)` from the wallet
screens: derives the shared secret with `nacl.box.before`, encrypts the
JSON-serialized payload under a fresh random nonce (`nacl.randomBytes`,
modelled as the explicit `freshNonce` argument), and base58-encodes
ciphertext, nonce, and the dapp public key for transport. -/
def encryptPayload (payload : Payload) (encryptionPublicKey : String)
    (keypair : BoxKeyPair) (freshNonce : Bytes) : EncryptedEnvelope :=
  let sharedSecret := nacl.box.before (bs58.decode encryptionPublicKey) keypair.secretKey
  let encrypted := nacl.box.after (jsonStringify payload) freshNonce sharedSecret
  ⟨bs58.encode encrypted, bs58.encode freshNonce, bs58.encode keypair.publicKey⟩

namespace PhantomCallback

/-- The `PhantomState` record of `lib/phantom-callback.ts`. -/
structure PhantomState where
  publicKey : Option String
  session : Option String
  phantomEncryptionPublicKey : Option String
  signature : Option String
  lastUrl : Option String
  error : Option String
deriving DecidableEq

/-- `initialState` of `lib/phantom-callback.ts`. -/
def initialState : PhantomState := ⟨none, none, none, none, none, none⟩

/-- `resetPhantomState`: resets every field to its initial value while
preserving the diagnostic `lastUrl`. -/
def resetPhantomState (s : PhantomState) : PhantomState :=
  { initialState with lastUrl := s.lastUrl }

/-- `decryptPayload` of `lib/phantom-callback.ts`: throws (modelled as
`Except.error`) when the module keypair is missing, when authenticated
decryption fails, or when the decrypted bytes are not valid JSON. -/
def decryptPayload (keypair : Option BoxKeyPair)
    (encryptedPayload nonce phantomPubkey : String) : Except String Payload :=
  match keypair with
  | none => Except.error "Missing keypair"
  | some kp =>
    let sharedSecret := nacl.box.before (bs58.decode phantomPubkey) kp.secretKey
    match nacl.box.openAfter (bs58.decode encryptedPayload) (bs58.decode nonce) sharedSecret with
    | none => Except.error "Unable to decrypt payload"
    | some decrypted =>
      match jsonParse decrypted with
      | some payload => Except.ok payload
      | none => Except.error "Invalid payload JSON"

/-- `handlePhantomCallbackUrl` of `lib/phantom-callback.ts`, as a state
transformer: `keypair` is the module-level keypair, `url` the raw callback
URL, `query` its parsed query parameters. -/
def handlePhantomCallbackUrl (keypair : Option BoxKeyPair) (url : String)
    (query : QueryParams) (s0 : PhantomState) : PhantomState :=
  let s := { s0 with lastUrl := some url }
  match query.errorCode with
  | some code =>
    let message :=
      match query.errorMessage with
      | some m => m
      | none => "Unknown error"
    { s with error := some (if code = "userRejectedRequest" then
        "Request cancelled in Phantom." else code ++ ": " ++ message) }
  | none =>
    match orOpt query.data query.payload, query.nonce, query.phantom_encryption_public_key with
    | some encryptedPayload, some nonce, some phantomPubkey =>
      (match decryptPayload keypair encryptedPayload nonce phantomPubkey with
       | Except.ok payload =>
         { s with
           publicKey := orOpt payload.public_key s.publicKey
           session := orOpt payload.session s.session
           signature := orOpt payload.signature s.signature
           phantomEncryptionPublicKey := some phantomPubkey
           error := none }
       | Except.error e => { s with error := some e })
    | _, _, _ => s

/-- `subscribePhantomState`: appends the listener to the module listener
list.  Listeners are modelled by identity tokens (function references). -/
def subscribePhantomState (listeners : List Nat) (listener : Nat) : List Nat :=
  listeners ++ [listener]

/-- The unsubscribe closure returned by `subscribePhantomState`: removes the
listener by reference inequality. -/
def unsubscribePhantomState (listeners : List Nat) (listener : Nat) : List Nat :=
  listeners.filter (fun item => item != listener)

/-- `emit`: invokes every current listener, in order, with the current
state.  The result is the sequence of invocations performed. -/
def emit (listeners : List Nat) (s : PhantomState) : List (Nat × PhantomState) :=
  listeners.map (fun l => (l, s))

/-- The mobile branch of `disconnectPhantom` (wallet screen): clears the
module keypair (`setPhantomKeypair(null)`) and resets the state.  Returns
the new state and the new keypair. -/
def disconnectPhantom (s : PhantomState) : PhantomState × Option BoxKeyPair :=
  (resetPhantomState s, none)

end PhantomCallback

namespace SolflareCallback

/-- The `SolflareState` record of `lib/solflare-callback.ts`.  Unlike the
Phantom state it stores neither the remote encryption public key nor the
last signature. -/
structure SolflareState where
  publicKey : Option String
  session : Option String
  lastUrl : Option String
  error : Option String
deriving DecidableEq

/-- `initialState` of `lib/solflare-callback.ts`. -/
def initialState : SolflareState := ⟨none, none, none, none⟩

/-- `resetSolflareState`: resets every field to its initial value while
preserving the diagnostic `lastUrl`. -/
def resetSolflareState (s : SolflareState) : SolflareState :=
  { initialState with lastUrl := s.lastUrl }

/-- `decryptPayload` of `lib/solflare-callback.ts` (same body as the Phantom
variant; only the TypeScript cast of the parsed JSON differs). -/
def decryptPayload (keypair : Option BoxKeyPair)
    (encryptedPayload nonce solflarePubkey : String) : Except String Payload :=
  match keypair with
  | none => Except.error "Missing keypair"
  | some kp =>
    let sharedSecret := nacl.box.before (bs58.decode solflarePubkey) kp.secretKey
    match nacl.box.openAfter (bs58.decode encryptedPayload) (bs58.decode nonce) sharedSecret with
    | none => Except.error "Unable to decrypt payload"
    | some decrypted =>
      match jsonParse decrypted with
      | some payload => Except.ok payload
      | none => Except.error "Invalid payload JSON"

/-- `handleSolflareCallbackUrl` of `lib/solflare-callback.ts`: unlike the
Phantom handler it accepts no `payload` alias for `data`, formats every
explicit error as `code: message` with no special case for user rejection,
and stores only `publicKey` and `session` from the decrypted payload. -/
def handleSolflareCallbackUrl (keypair : Option BoxKeyPair) (url : String)
    (query : QueryParams) (s0 : SolflareState) : SolflareState :=
  let s := { s0 with lastUrl := some url }
  match query.errorCode with
  | some code =>
    let message :=
      match query.errorMessage with
      | some m => m
      | none => "Unknown error"
    { s with error := some (code ++ ": " ++ message) }
  | none =>
    match query.data, query.nonce, query.solflare_encryption_public_key with
    | some encryptedPayload, some nonce, some solflarePubkey =>
      (match decryptPayload keypair encryptedPayload nonce solflarePubkey with
       | Except.ok payload =>
         { s with
           publicKey := orOpt payload.public_key s.publicKey
           session := orOpt payload.session s.session
           error := none }
       | Except.error e => { s with error := some e })
    | _, _, _ => s

/-- `subscribeSolflareState`: appends the listener to the module list. -/
def subscribeSolflareState (listeners : List Nat) (listener : Nat) : List Nat :=
  listeners ++ [listener]

/-- The unsubscribe closure returned by `subscribeSolflareState`. -/
def unsubscribeSolflareState (listeners : List Nat) (listener : Nat) : List Nat :=
  listeners.filter (fun item => item != listener)

/-- `emit` of `lib/solflare-callback.ts`. -/
def emit (listeners : List Nat) (s : SolflareState) : List (Nat × SolflareState) :=
  listeners.map (fun l => (l, s))

/-- The mobile branch of `disconnectSolflare` (wallet screen). -/
def disconnectSolflare (s : SolflareState) : SolflareState × Option BoxKeyPair :=
  (resetSolflareState s, none)

end SolflareCallback

namespace WalletStore

/-- The `WalletKind` union of `lib/wallet-store.ts`. -/
inductive WalletKind
  | solflare
  | phantom
  | local
deriving DecidableEq

/-- `subscribeActiveWallet` of `lib/wallet-store.ts`. -/
def subscribeActiveWallet (walletListeners : List Nat) (listener : Nat) : List Nat :=
  walletListeners ++ [listener]

/-- The unsubscribe closure returned by `subscribeActiveWallet`. -/
def unsubscribeActiveWallet (walletListeners : List Nat) (listener : Nat) : List Nat :=
  walletListeners.filter (fun item => item != listener)

/-- `setActiveWallet`: stores the new kind and notifies every listener, in
order, with the new value.  Returns the new stored value and the sequence
of listener invocations. -/
def setActiveWallet (walletListeners : List Nat) (next : WalletKind) :
    WalletKind × List (Nat × WalletKind) :=
  (next, walletListeners.map (fun l => (l, next)))

end WalletStore

/-- The mobile Phantom deep-link branch of `sendTxWithActiveWallet`
(`app/(tabs)/index.tsx`): requires a session token, a stored remote
encryption public key and the live ephemeral keypair before building the
sign URL; on success returns the dispatched URL base and the encrypted
envelope.  JavaScript truthiness makes the empty string count as absent. -/
def sendTxPhantomDeeplink (phantomState : PhantomCallback.PhantomState)
    (kpRef : Option BoxKeyPair) (txBase64 : String) (freshNonce : Bytes) :
    Except String (String × EncryptedEnvelope) :=
  match phantomState.session, phantomState.phantomEncryptionPublicKey with
  | some session, some phantomEncryptionPublicKey =>
    if session = "" ∨ phantomEncryptionPublicKey = "" then
      Except.error "Missing Phantom session. Reconnect wallet."
    else
      match kpRef with
      | none => Except.error "Missing Phantom keypair."
      | some kp =>
        let env := encryptPayload ⟨none, some session, none, some txBase64⟩
          phantomEncryptionPublicKey kp freshNonce
        Except.ok ("https://phantom.app/ul/v1/signAndSendTransaction", env)
  | _, _ => Except.error "Missing Phantom session. Reconnect wallet."

/-- The mobile Solflare deep-link branch of `sendTxWithActiveWallet`
(`app/(tabs)/index.tsx`): the guard reads
`solflareState.solflareEncryptionPublicKey`, but the `SolflareState` record
declares no such field, so the JavaScript property access evaluates to
`undefined`, modelled as `none`. -/
def sendTxSolflareDeeplink (solflareState : SolflareCallback.SolflareState)
    (kpRef : Option BoxKeyPair) (txBase64 : String) (freshNonce : Bytes) :
    Except String (String × EncryptedEnvelope) :=
  let solflareEncryptionPublicKey : Option String := none
  match solflareState.session, solflareEncryptionPublicKey with
  | some session, some encKey =>
    if session = "" ∨ encKey = "" then
      Except.error "Missing Solflare session. Reconnect wallet."
    else
      match kpRef with
      | none => Except.error "Missing Solflare keypair."
      | some kp =>
        let env := encryptPayload ⟨none, some session, none, some txBase64⟩
          encKey kp freshNonce
        Except.ok ("https://solflare.com/ul/v1/signAndSendTransaction", env)
  | _, _ => Except.error "Missing Solflare session. Reconnect wallet."

/-! ## Concrete sample values used by witnesses and counterexamples -/

namespace Samples

/-- A concrete ephemeral keypair. -/
def kpA : BoxKeyPair := ⟨['P'], ['a']⟩

/-- A second, distinct concrete ephemeral keypair. -/
def kpB : BoxKeyPair := ⟨['Q'], ['b']⟩

/-- A connect-response payload carrying both a wallet address and a session
token. -/
def payloadFull : Payload := ⟨some "Addr1", some "Tok1", none, none⟩

/-- A sign-response payload carrying only a signature. -/
def payloadSigOnly : Payload := ⟨none, none, some "Sig1", none⟩

/-- A concrete fresh nonce. -/
def nonceA : Bytes := ['n']

/-- The wallet's encryption public key, base58-encoded. -/
def walletPk : String := "W"

/-- The connect-response payload encrypted to `kpA`. -/
def envFull : EncryptedEnvelope := encryptPayload payloadFull walletPk kpA nonceA

/-- The sign-response payload encrypted to `kpA`. -/
def envSig : EncryptedEnvelope := encryptPayload payloadSigOnly walletPk kpA nonceA

/-- A callback query carrying the encrypted connect response. -/
def qFull : QueryParams :=
  ⟨none, none, some envFull.data, none, some envFull.nonce, some walletPk, some walletPk⟩

/-- A callback query carrying the encrypted signature-only response. -/
def qSig : QueryParams :=
  ⟨none, none, some envSig.data, none, some envSig.nonce, some walletPk, some walletPk⟩

/-- A callback query with the `nonce` parameter missing. -/
def qMissingNonce : QueryParams :=
  ⟨none, none, some "x", none, none, some walletPk, some walletPk⟩

/-- A Phantom state as it looks after a successful connect. -/
def sConnected : PhantomCallback.PhantomState :=
  ⟨some "Addr1", some "Tok1", some walletPk, none, some "old", none⟩

/-- A Solflare state as it looks after a successful connect. -/
def sConnectedSol : SolflareCallback.SolflareState :=
  ⟨some "Addr1", some "Tok1", some "old", none⟩

end Samples

/-! ## Round-trip laws of the modelled external codecs -/

theorem bs58_decode_encode (b : Bytes) : bs58.decode (bs58.encode b) = b := rfl

theorem leadCount_replicate (j : Nat) (xs : Bytes) :
    nacl.leadCount (List.replicate j 'L' ++ '.' :: xs) = j := by
  induction j with
  | zero => simp [nacl.leadCount]
  | succ n ih => simp [nacl.leadCount, List.replicate_succ, ih]

theorem drop_replicate_cons (j : Nat) (a b : Char) (xs : Bytes) :
    (List.replicate j a ++ b :: xs).drop (j + 1) = xs := by
  induction j with
  | zero => simp
  | succ n ih => simpa [List.replicate_succ] using ih

theorem extractMessage_after (m n k : Bytes) :
    nacl.extractMessage (nacl.box.after m n k) = m := by
  unfold nacl.extractMessage
  rw [show nacl.box.after m n k =
        List.replicate m.length 'L' ++ '.' :: (m ++ (n ++ k)) from rfl]
  rw [leadCount_replicate, drop_replicate_cons, List.take_left]

theorem box_openAfter_after (m n k : Bytes) :
    nacl.box.openAfter (nacl.box.after m n k) n k = some m := by
  unfold nacl.box.openAfter
  rw [extractMessage_after, if_pos rfl]

theorem box_after_inj_key (m n k k' : Bytes)
    (h : nacl.box.after m n k = nacl.box.after m n k') : k = k' := by
  unfold nacl.box.after at h
  have h1 := List.append_cancel_left h
  have h2 := (List.cons.injEq _ _ _ _).mp h1
  exact List.append_cancel_left (List.append_cancel_left h2.2)

theorem box_openAfter_wrong_key (m n k k' : Bytes) (h : k ≠ k') :
    nacl.box.openAfter (nacl.box.after m n k) n k' = none := by
  unfold nacl.box.openAfter
  rw [extractMessage_after, if_neg]
  intro heq
  exact h (box_after_inj_key m n k k' heq)

theorem decStrAux_encStrChars (cs : List Char) :
    ∀ (rest acc : List Char),
      decStrAux (encStrChars cs ++ rest) acc = some (String.mk (acc.reverse ++ cs), rest) := by
  induction cs with
  | nil =>
    intro rest acc
    cases rest with
    | nil => simp [encStrChars, decStrAux]
    | cons d rs => simp [encStrChars, decStrAux]
  | cons c cs ih =>
    intro rest acc
    simp only [encStrChars, List.cons_append]
    rw [show decStrAux ('E' :: c :: (encStrChars cs ++ rest)) acc
          = decStrAux (encStrChars cs ++ rest) (c :: acc) from by simp [decStrAux]]
    rw [ih rest (c :: acc)]
    simp

theorem decOpt_encOpt (o : Option String) (rest : List Char) :
    decOpt (encOpt o ++ rest) = some (o, rest) := by
  cases o with
  | none => simp [encOpt, decOpt]
  | some s =>
    simp only [encOpt, List.cons_append]
    simp [decOpt, decStrAux_encStrChars s.data rest []]

theorem jsonParse_jsonStringify (p : Payload) : jsonParse (jsonStringify p) = some p := by
  unfold jsonParse jsonStringify
  rw [decOpt_encOpt]
  simp only [Option.bind_eq_bind, Option.some_bind]
  rw [decOpt_encOpt]
  simp only [Option.some_bind]
  rw [decOpt_encOpt]
  simp only [Option.some_bind]
  rw [show encOpt p.transaction = encOpt p.transaction ++ [] by simp]
  rw [decOpt_encOpt]
  simp

/-! ## Claim theorems -/

/-- C1: for every shared secret derived via the box construction (here: the
secret `nacl.box.before` derives from the wallet encryption public key and
the ephemeral secret key) and every serializable payload, decrypting the
(ciphertext, nonce) pair produced by `encryptPayload` under that same shared
secret — as both providers' `decryptPayload` do, after base58 decoding —
returns the original payload object. -/
theorem claim1_encrypt_decrypt_roundtrip (p : Payload) (encPk : String)
    (kp : BoxKeyPair) (freshNonce : Bytes) :
    PhantomCallback.decryptPayload (some kp) (encryptPayload p encPk kp freshNonce).data
      (encryptPayload p encPk kp freshNonce).nonce encPk = Except.ok p ∧
    SolflareCallback.decryptPayload (some kp) (encryptPayload p encPk kp freshNonce).data
      (encryptPayload p encPk kp freshNonce).nonce encPk = Except.ok p := by
  constructor <;>
    simp [PhantomCallback.decryptPayload, SolflareCallback.decryptPayload,
      encryptPayload, bs58.decode, bs58.encode, box_openAfter_after,
      jsonParse_jsonStringify]

/-- C4: a (ciphertext, nonce) pair encrypted under the shared secret derived
from one keypair cannot be decrypted under the shared secret derived from a
different keypair: both providers' `decryptPayload` fail with the
decryption-failed error and never return a plaintext. -/
theorem claim4_decrypt_wrong_keypair_fails (p : Payload) (encPk : String)
    (kp kp' : BoxKeyPair) (freshNonce : Bytes)
    (h : kp.secretKey ≠ kp'.secretKey) :
    PhantomCallback.decryptPayload (some kp') (encryptPayload p encPk kp freshNonce).data
      (encryptPayload p encPk kp freshNonce).nonce encPk
      = Except.error "Unable to decrypt payload" ∧
    SolflareCallback.decryptPayload (some kp') (encryptPayload p encPk kp freshNonce).data
      (encryptPayload p encPk kp freshNonce).nonce encPk
      = Except.error "Unable to decrypt payload" := by
  have hk : nacl.box.before encPk.data kp.secretKey ≠
      nacl.box.before encPk.data kp'.secretKey := by
    intro he
    apply h
    simp only [nacl.box.before] at he
    have h1 := List.append_cancel_left he
    exact ((List.cons.injEq _ _ _ _).mp h1).2
  constructor <;>
    simp [PhantomCallback.decryptPayload, SolflareCallback.decryptPayload,
      encryptPayload, bs58.decode, bs58.encode,
      box_openAfter_wrong_key _ _ _ _ hk]

/-- Witness for C4 at concrete distinct keypairs. -/
theorem claim4_witness :
    PhantomCallback.decryptPayload (some Samples.kpB) Samples.envFull.data
      Samples.envFull.nonce Samples.walletPk = Except.error "Unable to decrypt payload" ∧
    SolflareCallback.decryptPayload (some Samples.kpB) Samples.envFull.data
      Samples.envFull.nonce Samples.walletPk = Except.error "Unable to decrypt payload" :=
  claim4_decrypt_wrong_keypair_fails Samples.payloadFull Samples.walletPk
    Samples.kpA Samples.kpB Samples.nonceA (by decide)

/-- C8: from every starting state, disconnect (reset plus clearing the
keypair) returns the provider state to its initial disconnected values with
every per-provider field cleared, except the diagnostic `lastUrl`, which
keeps its previous value; the ephemeral keypair is cleared. -/
theorem claim8_disconnect_resets (s : PhantomCallback.PhantomState)
    (t : SolflareCallback.SolflareState) :
    PhantomCallback.disconnectPhantom s = (⟨none, none, none, none, s.lastUrl, none⟩, none) ∧
    SolflareCallback.disconnectSolflare t = (⟨none, none, t.lastUrl, none⟩, none) :=
  ⟨rfl, rfl⟩

/-- C3: whenever the session token, the stored remote encryption public key,
or the live ephemeral keypair is absent, requesting a deep-link signature
fails with a session-not-established error and no sign URL is built or
dispatched; the Solflare branch reads a field its state record does not
declare, so it fails unconditionally. -/
theorem claim3_sign_requires_session (sp : PhantomCallback.PhantomState)
    (ss : SolflareCallback.SolflareState) (kpP kpS : Option BoxKeyPair)
    (tx : String) (nP nS : Bytes)
    (h : sp.session = none ∨ sp.phantomEncryptionPublicKey = none ∨ kpP = none) :
    (sendTxPhantomDeeplink sp kpP tx nP
        = Except.error "Missing Phantom session. Reconnect wallet." ∨
     sendTxPhantomDeeplink sp kpP tx nP = Except.error "Missing Phantom keypair.") ∧
    sendTxSolflareDeeplink ss kpS tx nS
      = Except.error "Missing Solflare session. Reconnect wallet." := by
  constructor
  · rcases h with h | h | h
    · left
      cases hpe : sp.phantomEncryptionPublicKey <;>
        simp [sendTxPhantomDeeplink, h, hpe]
    · left
      cases hs : sp.session <;> simp [sendTxPhantomDeeplink, h, hs]
    · cases hs : sp.session with
      | none =>
        left
        cases hpe : sp.phantomEncryptionPublicKey <;>
          simp [sendTxPhantomDeeplink, hs, hpe]
      | some a =>
        cases hpe : sp.phantomEncryptionPublicKey with
        | none => left; simp [sendTxPhantomDeeplink, hs, hpe]
        | some e =>
          by_cases hemp : a = "" ∨ e = ""
          · left; simp [sendTxPhantomDeeplink, hs, hpe, hemp, h]
          · right; simp [sendTxPhantomDeeplink, hs, hpe, hemp, h]
  · cases hs : ss.session <;> simp [sendTxSolflareDeeplink, hs]

/-- Witness for C3: from the initial states, with no keypair, both sign
branches fail before building a URL. -/
theorem claim3_witness :
    (sendTxPhantomDeeplink PhantomCallback.initialState none "tx" []
        = Except.error "Missing Phantom session. Reconnect wallet." ∨
     sendTxPhantomDeeplink PhantomCallback.initialState none "tx" []
        = Except.error "Missing Phantom keypair.") ∧
    sendTxSolflareDeeplink SolflareCallback.initialState none "tx" []
      = Except.error "Missing Solflare session. Reconnect wallet." :=
  claim3_sign_requires_session PhantomCallback.initialState SolflareCallback.initialState
    none none "tx" [] [] (Or.inl rfl)

/-- Counting a pairing of a listener with a fixed state in a notification
sequence counts the listener. -/
theorem count_map_pair {β : Type} [DecidableEq β] (L : List Nat) (l : Nat) (s : β) :
    (L.map (fun x => (x, s))).count (l, s) = L.count l := by
  induction L with
  | nil => simp
  | cons a t ih => simp [List.count_cons, ih, Prod.ext_iff]

/-- C9: a mutation notifies each currently subscribed listener synchronously,
exactly once, in subscription order, with the new state; a listener added by
subscribe is notified last; after unsubscribing, the listener is no longer
invoked.  Shown for the Phantom callback store and the active-wallet store. -/
theorem claim9_subscribe_emit (L W : List Nat) (l l2 lw : Nat)
    (s : PhantomCallback.PhantomState) (k : WalletStore.WalletKind)
    (p q : Nat × PhantomCallback.PhantomState)
    (hL : L.count l = 1) (hW : W.count lw = 1)
    (hp : p ∈ PhantomCallback.emit L s)
    (hq : q ∈ PhantomCallback.emit (PhantomCallback.unsubscribePhantomState L l) s) :
    (PhantomCallback.emit L s).count (l, s) = 1 ∧
    PhantomCallback.emit (PhantomCallback.subscribePhantomState L l2) s
      = PhantomCallback.emit L s ++ [(l2, s)] ∧
    p.2 = s ∧
    q.1 ≠ l ∧
    (WalletStore.setActiveWallet W k).2.count (lw, k) = 1 ∧
    (WalletStore.setActiveWallet (WalletStore.subscribeActiveWallet W lw) k).2
      = (WalletStore.setActiveWallet W k).2 ++ [(lw, k)] := by
  refine ⟨?_, ?_, ?_, ?_, ?_, ?_⟩
  · rw [PhantomCallback.emit, count_map_pair]; exact hL
  · simp [PhantomCallback.emit, PhantomCallback.subscribePhantomState]
  · obtain ⟨x, _, rfl⟩ := List.mem_map.mp hp
    rfl
  · obtain ⟨x, hx, rfl⟩ := List.mem_map.mp hq
    have hx2 := (List.mem_filter.mp hx).2
    simpa using hx2
  · rw [WalletStore.setActiveWallet]; rw [count_map_pair]; exact hW
  · simp [WalletStore.setActiveWallet, WalletStore.subscribeActiveWallet]

/-- Witness for C9 at a concrete listener list. -/
theorem claim9_witness :
    (PhantomCallback.emit [5, 9] Samples.sConnected).count (5, Samples.sConnected) = 1 ∧
    PhantomCallback.emit (PhantomCallback.subscribePhantomState [5, 9] 11) Samples.sConnected
      = PhantomCallback.emit [5, 9] Samples.sConnected ++ [(11, Samples.sConnected)] ∧
    ((5 : Nat), Samples.sConnected).2 = Samples.sConnected ∧
    ((9 : Nat), Samples.sConnected).1 ≠ 5 ∧
    (WalletStore.setActiveWallet [7] WalletStore.WalletKind.phantom).2.count
      (7, WalletStore.WalletKind.phantom) = 1 ∧
    (WalletStore.setActiveWallet (WalletStore.subscribeActiveWallet [7] 7)
        WalletStore.WalletKind.phantom).2
      = (WalletStore.setActiveWallet [7] WalletStore.WalletKind.phantom).2
        ++ [(7, WalletStore.WalletKind.phantom)] :=
  claim9_subscribe_emit [5, 9] [7] 5 11 7 Samples.sConnected WalletStore.WalletKind.phantom
    (5, Samples.sConnected) (9, Samples.sConnected)
    (by decide) (by decide) (by decide) (by decide)

/-- Shape of the Phantom handler result on a successfully decrypted payload
callback. -/
theorem handlePhantom_success (kp : Option BoxKeyPair) (url : String) (q : QueryParams)
    (s : PhantomCallback.PhantomState) (p : Payload) (ep no ppk : String)
    (he : q.errorCode = none) (hd : orOpt q.data q.payload = some ep)
    (hn : q.nonce = some no) (hk : q.phantom_encryption_public_key = some ppk)
    (hdec : PhantomCallback.decryptPayload kp ep no ppk = Except.ok p) :
    PhantomCallback.handlePhantomCallbackUrl kp url q s =
      ⟨orOpt p.public_key s.publicKey, orOpt p.session s.session, some ppk,
       orOpt p.signature s.signature, some url, none⟩ := by
  simp [PhantomCallback.handlePhantomCallbackUrl, he, hd, hn, hk, hdec]

/-- Shape of the Solflare handler result on a successfully decrypted payload
callback. -/
theorem handleSolflare_success (kp : Option BoxKeyPair) (url : String) (q : QueryParams)
    (t : SolflareCallback.SolflareState) (p : Payload) (ep no spk : String)
    (he : q.errorCode = none) (hd : q.data = some ep)
    (hn : q.nonce = some no) (hk : q.solflare_encryption_public_key = some spk)
    (hdec : SolflareCallback.decryptPayload kp ep no spk = Except.ok p) :
    SolflareCallback.handleSolflareCallbackUrl kp url q t =
      ⟨orOpt p.public_key t.publicKey, orOpt p.session t.session, some url, none⟩ := by
  simp [SolflareCallback.handleSolflareCallbackUrl, he, hd, hn, hk, hdec]

/-- Counterexample to C2: a successfully decrypted payload that carries only
a signature (no `session` key) puts the Phantom store in a reachable state
where the remote encryption public key is present but the session token is
absent — exactly one of the two is present. -/
theorem claim2_counterexample :
    (PhantomCallback.handlePhantomCallbackUrl (some Samples.kpA) "app://cb" Samples.qSig
        PhantomCallback.initialState).phantomEncryptionPublicKey = some Samples.walletPk ∧
    (PhantomCallback.handlePhantomCallbackUrl (some Samples.kpA) "app://cb" Samples.qSig
        PhantomCallback.initialState).session = none := by
  constructor <;> rfl

/-- C2 as amended: for Phantom, after a callback whose decrypted payload
carries a `session` is processed, the stored remote encryption public key
and the session token are both present, and reset clears both together;
a decrypted payload without a `session` key, however, can leave exactly the
remote key present (see the counterexample), and the Solflare state stores
no remote encryption public key at all. -/
theorem claim2_amended (kp : Option BoxKeyPair) (url : String) (q : QueryParams)
    (s : PhantomCallback.PhantomState) (p : Payload) (ep no ppk : String)
    (he : q.errorCode = none) (hd : orOpt q.data q.payload = some ep)
    (hn : q.nonce = some no) (hk : q.phantom_encryption_public_key = some ppk)
    (hdec : PhantomCallback.decryptPayload kp ep no ppk = Except.ok p)
    (hs : p.session.isSome = true) :
    (PhantomCallback.handlePhantomCallbackUrl kp url q s).phantomEncryptionPublicKey.isSome
      = true ∧
    (PhantomCallback.handlePhantomCallbackUrl kp url q s).session.isSome = true ∧
    (PhantomCallback.resetPhantomState
        (PhantomCallback.handlePhantomCallbackUrl kp url q s)).phantomEncryptionPublicKey
      = none ∧
    (PhantomCallback.resetPhantomState
        (PhantomCallback.handlePhantomCallbackUrl kp url q s)).session = none := by
  rw [handlePhantom_success kp url q s p ep no ppk he hd hn hk hdec]
  refine ⟨rfl, ?_, rfl, rfl⟩
  cases hps : p.session with
  | none => rw [hps] at hs; simp at hs
  | some v => simp [orOpt, hps]

/-- Witness for the amended C2 at a concrete connect response. -/
theorem claim2_amended_witness :
    (PhantomCallback.handlePhantomCallbackUrl (some Samples.kpA) "app://cb" Samples.qFull
        PhantomCallback.initialState).phantomEncryptionPublicKey.isSome = true ∧
    (PhantomCallback.handlePhantomCallbackUrl (some Samples.kpA) "app://cb" Samples.qFull
        PhantomCallback.initialState).session.isSome = true ∧
    (PhantomCallback.resetPhantomState
        (PhantomCallback.handlePhantomCallbackUrl (some Samples.kpA) "app://cb" Samples.qFull
          PhantomCallback.initialState)).phantomEncryptionPublicKey = none ∧
    (PhantomCallback.resetPhantomState
        (PhantomCallback.handlePhantomCallbackUrl (some Samples.kpA) "app://cb" Samples.qFull
          PhantomCallback.initialState)).session = none :=
  claim2_amended (some Samples.kpA) "app://cb" Samples.qFull PhantomCallback.initialState
    Samples.payloadFull Samples.envFull.data Samples.envFull.nonce Samples.walletPk
    rfl rfl rfl rfl (by rfl) rfl

/-- C10: on a successfully decrypted payload callback, every state field
whose JSON key is absent from the decrypted payload keeps its previous
value, and the error field is reset to null — for both providers.  In
particular a sign response carrying only a signature leaves the wallet
address and the session token intact. -/
theorem claim10_absent_fields_retained (kp kps : Option BoxKeyPair) (url : String)
    (q : QueryParams) (s : PhantomCallback.PhantomState)
    (t : SolflareCallback.SolflareState) (p pt : Payload) (ep no ppk eps spk : String)
    (he : q.errorCode = none) (hd : orOpt q.data q.payload = some ep)
    (hn : q.nonce = some no) (hk : q.phantom_encryption_public_key = some ppk)
    (hdec : PhantomCallback.decryptPayload kp ep no ppk = Except.ok p)
    (hds : q.data = some eps) (hks : q.solflare_encryption_public_key = some spk)
    (hdecs : SolflareCallback.decryptPayload kps eps no spk = Except.ok pt) :
    ((p.public_key = none →
        (PhantomCallback.handlePhantomCallbackUrl kp url q s).publicKey = s.publicKey) ∧
     (p.session = none →
        (PhantomCallback.handlePhantomCallbackUrl kp url q s).session = s.session) ∧
     (p.signature = none →
        (PhantomCallback.handlePhantomCallbackUrl kp url q s).signature = s.signature) ∧
     (PhantomCallback.handlePhantomCallbackUrl kp url q s).error = none) ∧
    ((pt.public_key = none →
        (SolflareCallback.handleSolflareCallbackUrl kps url q t).publicKey = t.publicKey) ∧
     (pt.session = none →
        (SolflareCallback.handleSolflareCallbackUrl kps url q t).session = t.session) ∧
     (SolflareCallback.handleSolflareCallbackUrl kps url q t).error = none) := by
  rw [handlePhantom_success kp url q s p ep no ppk he hd hn hk hdec,
    handleSolflare_success kps url q t pt eps no spk he hds hn hks hdecs]
  refine ⟨⟨?_, ?_, ?_, rfl⟩, ?_, ?_, rfl⟩ <;>
    · intro h
      simp [orOpt, h]

/-- Witness for C10: a concrete signature-only response leaves the connected
wallet address and session token of a connected state intact for Phantom,
and the Solflare fields likewise. -/
theorem claim10_witness :
    ((PhantomCallback.handlePhantomCallbackUrl (some Samples.kpA) "app://cb" Samples.qSig
        Samples.sConnected).publicKey = Samples.sConnected.publicKey) ∧
    ((PhantomCallback.handlePhantomCallbackUrl (some Samples.kpA) "app://cb" Samples.qSig
        Samples.sConnected).session = Samples.sConnected.session) ∧
    ((PhantomCallback.handlePhantomCallbackUrl (some Samples.kpA) "app://cb" Samples.qSig
        Samples.sConnected).error = none) ∧
    ((SolflareCallback.handleSolflareCallbackUrl (some Samples.kpA) "app://cb" Samples.qSig
        Samples.sConnectedSol).publicKey = Samples.sConnectedSol.publicKey) ∧
    ((SolflareCallback.handleSolflareCallbackUrl (some Samples.kpA) "app://cb" Samples.qSig
        Samples.sConnectedSol).session = Samples.sConnectedSol.session) := by
  have h := claim10_absent_fields_retained (some Samples.kpA) (some Samples.kpA) "app://cb"
    Samples.qSig Samples.sConnected Samples.sConnectedSol
    Samples.payloadSigOnly Samples.payloadSigOnly
    Samples.envSig.data Samples.envSig.nonce Samples.walletPk Samples.envSig.data
    Samples.walletPk rfl rfl rfl rfl (by rfl) rfl rfl (by rfl)
  exact ⟨h.1.1 rfl, h.1.2.1 rfl, h.1.2.2.2, h.2.1 rfl, h.2.2.1 rfl⟩

/-- Counterexample to C6: after `disconnectPhantom` clears the keypair, a
subsequently-arriving payload callback for the old attempt does fail
decryption, but the failure IS surfaced: the per-provider error field is set
to the decryption error message, not left unset as the claim states. -/
theorem claim6_counterexample :
    (PhantomCallback.handlePhantomCallbackUrl
        (PhantomCallback.disconnectPhantom Samples.sConnected).2 "app://cb" Samples.qFull
        (PhantomCallback.disconnectPhantom Samples.sConnected).1).error
      = some "Missing keypair" := by rfl

/-- C6 as amended: after disconnect invalidates the ephemeral keypair, a
subsequently-arriving payload callback fails decryption and the connection
fields stay cleared, but the failure is surfaced in the per-provider error
field (set to the decryption error message) rather than being silently
ignored. -/
theorem claim6_amended (s : PhantomCallback.PhantomState) (url : String)
    (q : QueryParams) (ep no ppk : String)
    (he : q.errorCode = none) (hd : orOpt q.data q.payload = some ep)
    (hn : q.nonce = some no) (hk : q.phantom_encryption_public_key = some ppk) :
    (PhantomCallback.handlePhantomCallbackUrl (PhantomCallback.disconnectPhantom s).2 url q
        (PhantomCallback.disconnectPhantom s).1).error = some "Missing keypair" ∧
    (PhantomCallback.handlePhantomCallbackUrl (PhantomCallback.disconnectPhantom s).2 url q
        (PhantomCallback.disconnectPhantom s).1).publicKey = none ∧
    (PhantomCallback.handlePhantomCallbackUrl (PhantomCallback.disconnectPhantom s).2 url q
        (PhantomCallback.disconnectPhantom s).1).session = none ∧
    (PhantomCallback.handlePhantomCallbackUrl (PhantomCallback.disconnectPhantom s).2 url q
        (PhantomCallback.disconnectPhantom s).1).phantomEncryptionPublicKey = none ∧
    (PhantomCallback.handlePhantomCallbackUrl (PhantomCallback.disconnectPhantom s).2 url q
        (PhantomCallback.disconnectPhantom s).1).signature = none := by
  simp [PhantomCallback.handlePhantomCallbackUrl, PhantomCallback.disconnectPhantom,
    PhantomCallback.resetPhantomState, PhantomCallback.initialState,
    PhantomCallback.decryptPayload, he, hd, hn, hk]

/-- Witness for the amended C6 at a concrete disconnected state and a
concrete well-formed callback. -/
theorem claim6_amended_witness :
    (PhantomCallback.handlePhantomCallbackUrl
        (PhantomCallback.disconnectPhantom Samples.sConnected).2 "app://cb" Samples.qFull
        (PhantomCallback.disconnectPhantom Samples.sConnected).1).error
      = some "Missing keypair" ∧
    (PhantomCallback.handlePhantomCallbackUrl
        (PhantomCallback.disconnectPhantom Samples.sConnected).2 "app://cb" Samples.qFull
        (PhantomCallback.disconnectPhantom Samples.sConnected).1).publicKey = none ∧
    (PhantomCallback.handlePhantomCallbackUrl
        (PhantomCallback.disconnectPhantom Samples.sConnected).2 "app://cb" Samples.qFull
        (PhantomCallback.disconnectPhantom Samples.sConnected).1).session = none ∧
    (PhantomCallback.handlePhantomCallbackUrl
        (PhantomCallback.disconnectPhantom Samples.sConnected).2 "app://cb" Samples.qFull
        (PhantomCallback.disconnectPhantom Samples.sConnected).1).phantomEncryptionPublicKey
      = none ∧
    (PhantomCallback.handlePhantomCallbackUrl
        (PhantomCallback.disconnectPhantom Samples.sConnected).2 "app://cb" Samples.qFull
        (PhantomCallback.disconnectPhantom Samples.sConnected).1).signature = none :=
  claim6_amended Samples.sConnected "app://cb" Samples.qFull
    Samples.envFull.data Samples.envFull.nonce Samples.walletPk rfl rfl rfl rfl

/-- Counterexample to C7: an inbound callback with no error code and the
`nonce` parameter missing is treated as a no-op for every protocol field,
but the diagnostic `lastUrl` state field IS updated, so not all state
fields are unchanged. -/
theorem claim7_counterexample :
    (PhantomCallback.handlePhantomCallbackUrl (some Samples.kpA) "app://cb"
        Samples.qMissingNonce PhantomCallback.initialState).lastUrl = some "app://cb" ∧
    PhantomCallback.initialState.lastUrl = none := by
  constructor <;> rfl

/-- C7 as amended: an inbound callback with no error code and any required
payload field missing leaves every state field unchanged and records no
error, except that the diagnostic `lastUrl` field is set to the incoming
URL — for both providers. -/
theorem claim7_amended (kp kps : Option BoxKeyPair) (url : String) (q : QueryParams)
    (s : PhantomCallback.PhantomState) (t : SolflareCallback.SolflareState)
    (he : q.errorCode = none) :
    ((orOpt q.data q.payload = none ∨ q.nonce = none ∨
        q.phantom_encryption_public_key = none) →
      PhantomCallback.handlePhantomCallbackUrl kp url q s = { s with lastUrl := some url }) ∧
    ((q.data = none ∨ q.nonce = none ∨ q.solflare_encryption_public_key = none) →
      SolflareCallback.handleSolflareCallbackUrl kps url q t
        = { t with lastUrl := some url }) := by
  constructor
  · intro h
    cases hd : orOpt q.data q.payload <;> cases hn : q.nonce <;>
      cases hk : q.phantom_encryption_public_key <;>
        simp_all [PhantomCallback.handlePhantomCallbackUrl]
  · intro h
    cases hd : q.data <;> cases hn : q.nonce <;>
      cases hk : q.solflare_encryption_public_key <;>
        simp_all [SolflareCallback.handleSolflareCallbackUrl]

/-- Witness for the amended C7 at a concrete callback missing its nonce. -/
theorem claim7_amended_witness :
    PhantomCallback.handlePhantomCallbackUrl (some Samples.kpA) "app://cb"
        Samples.qMissingNonce Samples.sConnected
      = { Samples.sConnected with lastUrl := some "app://cb" } ∧
    SolflareCallback.handleSolflareCallbackUrl (some Samples.kpA) "app://cb"
        Samples.qMissingNonce Samples.sConnectedSol
      = { Samples.sConnectedSol with lastUrl := some "app://cb" } :=
  ⟨(claim7_amended (some Samples.kpA) (some Samples.kpA) "app://cb" Samples.qMissingNonce
      Samples.sConnected Samples.sConnectedSol rfl).1 (Or.inr (Or.inl rfl)),
   (claim7_amended (some Samples.kpA) (some Samples.kpA) "app://cb" Samples.qMissingNonce
      Samples.sConnected Samples.sConnectedSol rfl).2 (Or.inr (Or.inl rfl))⟩

/-- Counterexample to C5: the Solflare handler formats every explicit error
callback as `errorCode: errorMessage` with no dedicated cancellation branch,
so a user-cancellation callback and a callback with a different error code
can produce the very same error descriptor — the descriptor does not
distinguish user cancellation from other errors. -/
theorem claim5_counterexample :
    ((some "userRejectedRequest" : Option String) ≠ some "userRejectedRequest: a") ∧
    (SolflareCallback.handleSolflareCallbackUrl none "app://cb"
        ⟨some "userRejectedRequest", some "a: b", none, none, none, none, none⟩
        SolflareCallback.initialState).error
      = (SolflareCallback.handleSolflareCallbackUrl none "app://cb"
          ⟨some "userRejectedRequest: a", some "b", none, none, none, none, none⟩
          SolflareCallback.initialState).error := by
  constructor
  · decide
  · rfl

/-- Concatenation of the underlying character lists. -/
theorem strData_append (a b : String) : (a ++ b).data = a.data ++ b.data := rfl

/-- C5 as amended: the Phantom handler maps `errorCode=userRejectedRequest`
to the dedicated descriptor "Request cancelled in Phantom.", which differs
from the descriptor produced for every other error code (and from the
decryption-failure messages, which are fixed distinct strings), and leaves
the previously-stored connected fields unchanged; the Solflare handler
formats every error callback, including user cancellation, as
`errorCode: errorMessage` (no distinguished cancellation descriptor — see
the counterexample), likewise leaving its stored fields unchanged. -/
theorem claim5_amended (kp kp2 kps : Option BoxKeyPair) (url url2 url3 : String)
    (q q2 : QueryParams) (s s2 : PhantomCallback.PhantomState)
    (t : SolflareCallback.SolflareState) (c : String)
    (h1 : q.errorCode = some "userRejectedRequest")
    (h2 : q2.errorCode = some c) (h3 : c ≠ "userRejectedRequest") :
    (PhantomCallback.handlePhantomCallbackUrl kp url q s).error
      = some "Request cancelled in Phantom." ∧
    (PhantomCallback.handlePhantomCallbackUrl kp2 url2 q2 s2).error
      ≠ some "Request cancelled in Phantom." ∧
    (PhantomCallback.handlePhantomCallbackUrl kp url q s).publicKey = s.publicKey ∧
    (PhantomCallback.handlePhantomCallbackUrl kp url q s).session = s.session ∧
    (PhantomCallback.handlePhantomCallbackUrl kp url q s).phantomEncryptionPublicKey
      = s.phantomEncryptionPublicKey ∧
    (PhantomCallback.handlePhantomCallbackUrl kp url q s).signature = s.signature ∧
    (SolflareCallback.handleSolflareCallbackUrl kps url3 q t).publicKey = t.publicKey ∧
    (SolflareCallback.handleSolflareCallbackUrl kps url3 q t).session = t.session := by
  refine ⟨?_, ?_, ?_, ?_, ?_, ?_, ?_, ?_⟩
  · simp [PhantomCallback.handlePhantomCallbackUrl, h1]
  · have hShape : (PhantomCallback.handlePhantomCallbackUrl kp2 url2 q2 s2).error
        = some (c ++ ": " ++ (match q2.errorMessage with
            | some m => m
            | none => "Unknown error")) := by
      simp [PhantomCallback.handlePhantomCallbackUrl, h2, h3]
    rw [hShape]
    intro heq
    have hstr := Option.some.inj heq
    have hmem : ':' ∈ "Request cancelled in Phantom.".data := by
      rw [← hstr, strData_append, strData_append]
      have : ':' ∈ (": ").data := by decide
      exact List.mem_append.mpr (Or.inl (List.mem_append.mpr (Or.inr this)))
    revert hmem
    decide
  · simp [PhantomCallback.handlePhantomCallbackUrl, h1]
  · simp [PhantomCallback.handlePhantomCallbackUrl, h1]
  · simp [PhantomCallback.handlePhantomCallbackUrl, h1]
  · simp [PhantomCallback.handlePhantomCallbackUrl, h1]
  · simp [SolflareCallback.handleSolflareCallbackUrl, h1]
  · simp [SolflareCallback.handleSolflareCallbackUrl, h1]

/-- Witness for the amended C5 at concrete error callbacks. -/
theorem claim5_amended_witness :
    (PhantomCallback.handlePhantomCallbackUrl none "app://cb"
        ⟨some "userRejectedRequest", none, none, none, none, none, none⟩
        Samples.sConnected).error = some "Request cancelled in Phantom." ∧
    (PhantomCallback.handlePhantomCallbackUrl none "app://cb"
        ⟨some "someOtherError", some "boom", none, none, none, none, none⟩
        Samples.sConnected).error ≠ some "Request cancelled in Phantom." ∧
    (PhantomCallback.handlePhantomCallbackUrl none "app://cb"
        ⟨some "userRejectedRequest", none, none, none, none, none, none⟩
        Samples.sConnected).publicKey = Samples.sConnected.publicKey ∧
    (PhantomCallback.handlePhantomCallbackUrl none "app://cb"
        ⟨some "userRejectedRequest", none, none, none, none, none, none⟩
        Samples.sConnected).session = Samples.sConnected.session ∧
    (PhantomCallback.handlePhantomCallbackUrl none "app://cb"
        ⟨some "userRejectedRequest", none, none, none, none, none, none⟩
        Samples.sConnected).phantomEncryptionPublicKey
      = Samples.sConnected.phantomEncryptionPublicKey ∧
    (PhantomCallback.handlePhantomCallbackUrl none "app://cb"
        ⟨some "userRejectedRequest", none, none, none, none, none, none⟩
        Samples.sConnected).signature = Samples.sConnected.signature ∧
    (SolflareCallback.handleSolflareCallbackUrl none "app://sol"
        ⟨some "userRejectedRequest", none, none, none, none, none, none⟩
        Samples.sConnectedSol).publicKey = Samples.sConnectedSol.publicKey ∧
    (SolflareCallback.handleSolflareCallbackUrl none "app://sol"
        ⟨some "userRejectedRequest", none, none, none, none, none, none⟩
        Samples.sConnectedSol).session = Samples.sConnectedSol.session :=
  claim5_amended none none none "app://cb" "app://cb" "app://sol"
    ⟨some "userRejectedRequest", none, none, none, none, none, none⟩
    ⟨some "someOtherError", some "boom", none, none, none, none, none⟩
    Samples.sConnected Samples.sConnected Samples.sConnectedSol
    "someOtherError" rfl rfl (by decide)
